import Mathlib

/-!
Verification of the Cedar policy-validator diagnostics layer
(`cedar-policy-validator/src/diagnostics.rs`).

The diagnostics module defines `ValidationResult` (two vectors of
diagnostics plus derived accessors), the closed unions `ValidationError`
and `ValidationWarning`, and one constructor function per variant.  We
embed those definitions shallowly: Rust vectors and iterators become
Lean lists, the `BTreeSet` stored by `incompatible_types` becomes a
`Finset` (equality of a `BTreeSet` is exactly equality of the underlying
mathematical set), and each enum variant becomes a constructor carrying
the same fields, in the same order, as the Rust payload struct visible
through its constructor function.

Types that live outside the one source file (`Loc`, `PolicyID`,
`EntityType`, `Expr`, `EntityLUB`, `Type`, the helper/hint enums in the
`validation_errors` submodule) are modelled from the specification and
marked as such in their doc comments.
-/

namespace CedarDiag

/-- Modelled from the spec: source-location bookkeeping is an external
collaborator (spec section 1); a location is an opaque span over the
policy text.  Only structural equality of locations matters here. -/
structure Loc where
  start : Nat
  stop : Nat
deriving DecidableEq, Repr

/-- Modelled from the spec: an opaque identifier tying every diagnostic
back to the source policy; not interpreted beyond equality/ordering
(spec section 3). -/
structure PolicyID where
  id : String
deriving DecidableEq, Repr

/-- Modelled from the spec: the name of a declared entity type
(`cedar_policy_core::ast::EntityType`, external to the validator). -/
structure EntityType where
  name : String
deriving DecidableEq, Repr

/-- Modelled from the spec: the primitive kinds of the type lattice
(boolean, long, string; spec section 3). -/
inductive Prim where
  | boolean : Prim
  | long : Prim
  | string : Prim
deriving DecidableEq, Repr

mutual

/-- Modelled from the spec: a node of the validator's type lattice
(`crate::types::Type`, not part of the diagnostics source file):
primitive boolean/long/string types, record types mapping attribute
names to a type and a required flag, entity-LUB unions of declared
entity-type names, extension types, and the marker for an undefined
least upper bound (spec section 3). -/
inductive CedarType where
  | primitive (p : Prim) : CedarType
  | record (attrs : AttrList) : CedarType
  | entityLUB (members : List String) : CedarType
  | extensionType (name : String) : CedarType
  | lubUndefined : CedarType

/-- Modelled from the spec: a record type's attribute mapping, an
association list from attribute name to attribute type and a
required/optional flag (spec section 3). -/
inductive AttrList where
  | nil : AttrList
  | cons (name : String) (ty : CedarType) (required : Bool) (rest : AttrList) : AttrList

end

mutual

/-- Structural decidable equality on lattice types. -/
def CedarType.decEq : (a b : CedarType) → Decidable (a = b)
  | .primitive p, .primitive q =>
      if h : p = q then .isTrue (by rw [h])
      else .isFalse (fun hh => h (CedarType.primitive.inj hh))
  | .record a1, .record a2 =>
      match AttrList.decEq a1 a2 with
      | .isTrue h => .isTrue (by rw [h])
      | .isFalse h => .isFalse (fun hh => h (CedarType.record.inj hh))
  | .entityLUB m1, .entityLUB m2 =>
      if h : m1 = m2 then .isTrue (by rw [h])
      else .isFalse (fun hh => h (CedarType.entityLUB.inj hh))
  | .extensionType n1, .extensionType n2 =>
      if h : n1 = n2 then .isTrue (by rw [h])
      else .isFalse (fun hh => h (CedarType.extensionType.inj hh))
  | .lubUndefined, .lubUndefined => .isTrue rfl
  | .primitive _, .record _ => .isFalse (fun h => CedarType.noConfusion h)
  | .primitive _, .entityLUB _ => .isFalse (fun h => CedarType.noConfusion h)
  | .primitive _, .extensionType _ => .isFalse (fun h => CedarType.noConfusion h)
  | .primitive _, .lubUndefined => .isFalse (fun h => CedarType.noConfusion h)
  | .record _, .primitive _ => .isFalse (fun h => CedarType.noConfusion h)
  | .record _, .entityLUB _ => .isFalse (fun h => CedarType.noConfusion h)
  | .record _, .extensionType _ => .isFalse (fun h => CedarType.noConfusion h)
  | .record _, .lubUndefined => .isFalse (fun h => CedarType.noConfusion h)
  | .entityLUB _, .primitive _ => .isFalse (fun h => CedarType.noConfusion h)
  | .entityLUB _, .record _ => .isFalse (fun h => CedarType.noConfusion h)
  | .entityLUB _, .extensionType _ => .isFalse (fun h => CedarType.noConfusion h)
  | .entityLUB _, .lubUndefined => .isFalse (fun h => CedarType.noConfusion h)
  | .extensionType _, .primitive _ => .isFalse (fun h => CedarType.noConfusion h)
  | .extensionType _, .record _ => .isFalse (fun h => CedarType.noConfusion h)
  | .extensionType _, .entityLUB _ => .isFalse (fun h => CedarType.noConfusion h)
  | .extensionType _, .lubUndefined => .isFalse (fun h => CedarType.noConfusion h)
  | .lubUndefined, .primitive _ => .isFalse (fun h => CedarType.noConfusion h)
  | .lubUndefined, .record _ => .isFalse (fun h => CedarType.noConfusion h)
  | .lubUndefined, .entityLUB _ => .isFalse (fun h => CedarType.noConfusion h)
  | .lubUndefined, .extensionType _ => .isFalse (fun h => CedarType.noConfusion h)

/-- Structural decidable equality on attribute lists. -/
def AttrList.decEq : (a b : AttrList) → Decidable (a = b)
  | .nil, .nil => .isTrue rfl
  | .nil, .cons _ _ _ _ => .isFalse (fun h => AttrList.noConfusion h)
  | .cons _ _ _ _, .nil => .isFalse (fun h => AttrList.noConfusion h)
  | .cons n1 t1 r1 rest1, .cons n2 t2 r2 rest2 =>
      if hn : n1 = n2 then
        match CedarType.decEq t1 t2 with
        | .isTrue ht =>
            if hr : r1 = r2 then
              match AttrList.decEq rest1 rest2 with
              | .isTrue hrest => .isTrue (by rw [hn, ht, hr, hrest])
              | .isFalse hrest =>
                  .isFalse (fun hh => hrest (AttrList.cons.inj hh).2.2.2)
            else .isFalse (fun hh => hr (AttrList.cons.inj hh).2.2.1)
        | .isFalse ht => .isFalse (fun hh => ht (AttrList.cons.inj hh).2.1)
      else .isFalse (fun hh => hn (AttrList.cons.inj hh).1)

end

instance : DecidableEq CedarType := CedarType.decEq

instance : DecidableEq AttrList := AttrList.decEq

/-- Modelled from the spec: `EntityLUB` represents the value being an
entity of one of a set of declared types (spec section 3); only its
structural equality matters to the diagnostics layer. -/
structure EntityLUB where
  members : List String
deriving DecidableEq, Repr

/-- Modelled from the spec: a policy expression
(`cedar_policy_core::ast::Expr`, external: parsing and the AST are out
of scope).  The `UnsafeTagAccess` diagnostic stores the tag-key
expression; only its structural equality matters here. -/
structure Expr where
  repr : String
deriving DecidableEq, Repr

/-- Modelled from the spec: the optional hint attached to an
`UnrecognizedActionId` error, either pointing at a same-named action
declared for a different kind or suggesting the closest declared action
id by edit distance (spec section 4.4). -/
inductive UnrecognizedActionIdHelp where
  | wrongKindSameName (action : String) : UnrecognizedActionIdHelp
  | suggestAlternative (action : String) : UnrecognizedActionIdHelp
deriving DecidableEq, Repr

/-- Modelled from the spec: the optional help hint attached to an
`UnexpectedType` error (spec section 4.2). -/
structure UnexpectedTypeHelp where
  msg : String
deriving DecidableEq, Repr

/-- Modelled from the spec: the hint enum carried by `IncompatibleTypes`,
distinguishing unrelated entity types, differently shaped values, and an
empty-set literal of unknown element type (spec section 4.1). -/
inductive LubHelp where
  | unrelatedEntityTypes : LubHelp
  | differentShapes : LubHelp
  | emptySetUnknownElement : LubHelp
deriving DecidableEq, Repr

/-- Modelled from the spec: the context enum carried by
`IncompatibleTypes`, naming which language construct triggered the
failed join (spec section 4.1). -/
inductive LubContext where
  | conditional : LubContext
  | setElements : LubContext
deriving DecidableEq, Repr

/-- Modelled from the spec: describes the access path (receiver
expression class plus attribute name) at which an unsafe access was
detected (spec section 3). -/
structure AttributeAccess where
  receiver : String
  attrName : String
deriving DecidableEq, Repr

/-- Embeds the `ValidationError` enum of `diagnostics.rs` (default build:
the `EntityDerefLevelViolation` variant is behind the disabled
`level-validate` feature and therefore not part of the compiled enum).
Each Rust variant wraps a payload struct from the `validation_errors`
submodule; here each constructor carries those payload fields directly,
in the order the corresponding constructor function of
`impl ValidationError` supplies them. -/
inductive ValidationError where
  | unrecognizedEntityType (source_loc : Option Loc) (policy_id : PolicyID)
      (actual_entity_type : String) (suggested_entity_type : Option String) : ValidationError
  | unrecognizedActionId (source_loc : Option Loc) (policy_id : PolicyID)
      (actual_action_id : String) (hint : Option UnrecognizedActionIdHelp) : ValidationError
  | invalidActionApplication (source_loc : Option Loc) (policy_id : PolicyID)
      (would_in_fix_principal : Bool) (would_in_fix_resource : Bool) : ValidationError
  | unexpectedType (source_loc : Option Loc) (policy_id : PolicyID)
      (expected : List CedarType) (actual : CedarType)
      (help : Option UnexpectedTypeHelp) : ValidationError
  | incompatibleTypes (source_loc : Option Loc) (policy_id : PolicyID)
      (types : Finset CedarType) (hint : LubHelp) (context : LubContext) : ValidationError
  | unsafeAttributeAccess (source_loc : Option Loc) (policy_id : PolicyID)
      (attribute_access : AttributeAccess) (suggestion : Option String)
      (may_exist : Bool) : ValidationError
  | unsafeOptionalAttributeAccess (source_loc : Option Loc) (policy_id : PolicyID)
      (attribute_access : AttributeAccess) : ValidationError
  | unsafeTagAccess (source_loc : Option Loc) (policy_id : PolicyID)
      (entity_ty : Option EntityLUB) (tag : Expr) : ValidationError
  | noTagsAllowed (source_loc : Option Loc) (policy_id : PolicyID)
      (entity_ty : Option EntityType) : ValidationError
  | undefinedFunction (source_loc : Option Loc) (policy_id : PolicyID)
      (name : String) : ValidationError
  | wrongNumberArguments (source_loc : Option Loc) (policy_id : PolicyID)
      (expected : Nat) (actual : Nat) : ValidationError
  | functionArgumentValidation (source_loc : Option Loc) (policy_id : PolicyID)
      (msg : String) : ValidationError
  | emptySetForbidden (source_loc : Option Loc) (policy_id : PolicyID) : ValidationError
  | nonLitExtConstructor (source_loc : Option Loc) (policy_id : PolicyID) : ValidationError
  | hierarchyNotRespected (source_loc : Option Loc) (policy_id : PolicyID)
      (in_lhs : Option EntityType) (in_rhs : Option EntityType) : ValidationError
  | internalInvariantViolation (source_loc : Option Loc) (policy_id : PolicyID) : ValidationError
deriving DecidableEq

/-- Embeds the `ValidationWarning` enum of `diagnostics.rs`: six
variants, each constructor carrying the fields its Rust payload struct
stores. -/
inductive ValidationWarning where
  | mixedScriptString (source_loc : Option Loc) (policy_id : PolicyID)
      (string : String) : ValidationWarning
  | bidiCharsInString (source_loc : Option Loc) (policy_id : PolicyID)
      (string : String) : ValidationWarning
  | bidiCharsInIdentifier (source_loc : Option Loc) (policy_id : PolicyID)
      (id : String) : ValidationWarning
  | mixedScriptIdentifier (source_loc : Option Loc) (policy_id : PolicyID)
      (id : String) : ValidationWarning
  | confusableIdentifier (source_loc : Option Loc) (policy_id : PolicyID)
      (id : String) (confusable_character : Char) : ValidationWarning
  | impossiblePolicy (source_loc : Option Loc) (policy_id : PolicyID) : ValidationWarning
deriving DecidableEq

/-- Gets the source location any `ValidationError` variant carries. -/
def ValidationError.source_loc : ValidationError → Option Loc
  | .unrecognizedEntityType loc _ _ _ => loc
  | .unrecognizedActionId loc _ _ _ => loc
  | .invalidActionApplication loc _ _ _ => loc
  | .unexpectedType loc _ _ _ _ => loc
  | .incompatibleTypes loc _ _ _ _ => loc
  | .unsafeAttributeAccess loc _ _ _ _ => loc
  | .unsafeOptionalAttributeAccess loc _ _ => loc
  | .unsafeTagAccess loc _ _ _ => loc
  | .noTagsAllowed loc _ _ => loc
  | .undefinedFunction loc _ _ => loc
  | .wrongNumberArguments loc _ _ _ => loc
  | .functionArgumentValidation loc _ _ => loc
  | .emptySetForbidden loc _ => loc
  | .nonLitExtConstructor loc _ => loc
  | .hierarchyNotRespected loc _ _ _ => loc
  | .internalInvariantViolation loc _ => loc

/-- Gets the owning policy id any `ValidationError` variant carries. -/
def ValidationError.policy_id : ValidationError → PolicyID
  | .unrecognizedEntityType _ pid _ _ => pid
  | .unrecognizedActionId _ pid _ _ => pid
  | .invalidActionApplication _ pid _ _ => pid
  | .unexpectedType _ pid _ _ _ => pid
  | .incompatibleTypes _ pid _ _ _ => pid
  | .unsafeAttributeAccess _ pid _ _ _ => pid
  | .unsafeOptionalAttributeAccess _ pid _ => pid
  | .unsafeTagAccess _ pid _ _ => pid
  | .noTagsAllowed _ pid _ => pid
  | .undefinedFunction _ pid _ => pid
  | .wrongNumberArguments _ pid _ _ => pid
  | .functionArgumentValidation _ pid _ => pid
  | .emptySetForbidden _ pid => pid
  | .nonLitExtConstructor _ pid => pid
  | .hierarchyNotRespected _ pid _ _ => pid
  | .internalInvariantViolation _ pid => pid

/-- Embeds `ValidationError::unrecognized_entity_type`: builds the
payload struct from the arguments verbatim and injects it. -/
def ValidationError.unrecognized_entity_type (source_loc : Option Loc) (policy_id : PolicyID)
    (actual_entity_type : String) (suggested_entity_type : Option String) : ValidationError :=
  .unrecognizedEntityType source_loc policy_id actual_entity_type suggested_entity_type

/-- Embeds `ValidationError::unrecognized_action_id`. -/
def ValidationError.unrecognized_action_id (source_loc : Option Loc) (policy_id : PolicyID)
    (actual_action_id : String) (hint : Option UnrecognizedActionIdHelp) : ValidationError :=
  .unrecognizedActionId source_loc policy_id actual_action_id hint

/-- Embeds `ValidationError::invalid_action_application`. -/
def ValidationError.invalid_action_application (source_loc : Option Loc) (policy_id : PolicyID)
    (would_in_fix_principal : Bool) (would_in_fix_resource : Bool) : ValidationError :=
  .invalidActionApplication source_loc policy_id would_in_fix_principal would_in_fix_resource

/-- Embeds `ValidationError::expected_one_of_types`. -/
def ValidationError.expected_one_of_types (source_loc : Option Loc) (policy_id : PolicyID)
    (expected : List CedarType) (actual : CedarType)
    (help : Option UnexpectedTypeHelp) : ValidationError :=
  .unexpectedType source_loc policy_id expected actual help

/-- Embeds `ValidationError::incompatible_types`: the Rust constructor
collects the `types` iterator into a `BTreeSet<Type>`; collecting a list
into a `Finset` mirrors that (a `BTreeSet` is determined exactly by
which elements it contains). -/
def ValidationError.incompatible_types (source_loc : Option Loc) (policy_id : PolicyID)
    (types : List CedarType) (hint : LubHelp) (context : LubContext) : ValidationError :=
  .incompatibleTypes source_loc policy_id types.toFinset hint context

/-- Embeds `ValidationError::unsafe_attribute_access`. -/
def ValidationError.unsafe_attribute_access (source_loc : Option Loc) (policy_id : PolicyID)
    (attribute_access : AttributeAccess) (suggestion : Option String)
    (may_exist : Bool) : ValidationError :=
  .unsafeAttributeAccess source_loc policy_id attribute_access suggestion may_exist

/-- Embeds `ValidationError::unsafe_optional_attribute_access`. -/
def ValidationError.unsafe_optional_attribute_access (source_loc : Option Loc)
    (policy_id : PolicyID) (attribute_access : AttributeAccess) : ValidationError :=
  .unsafeOptionalAttributeAccess source_loc policy_id attribute_access

/-- Embeds `ValidationError::unsafe_tag_access`. -/
def ValidationError.unsafe_tag_access (source_loc : Option Loc) (policy_id : PolicyID)
    (entity_ty : Option EntityLUB) (tag : Expr) : ValidationError :=
  .unsafeTagAccess source_loc policy_id entity_ty tag

/-- Embeds `ValidationError::no_tags_allowed`. -/
def ValidationError.no_tags_allowed (source_loc : Option Loc) (policy_id : PolicyID)
    (entity_ty : Option EntityType) : ValidationError :=
  .noTagsAllowed source_loc policy_id entity_ty

/-- Embeds `ValidationError::undefined_extension`. -/
def ValidationError.undefined_extension (source_loc : Option Loc) (policy_id : PolicyID)
    (name : String) : ValidationError :=
  .undefinedFunction source_loc policy_id name

/-- Embeds `ValidationError::wrong_number_args` (`usize` becomes `Nat`). -/
def ValidationError.wrong_number_args (source_loc : Option Loc) (policy_id : PolicyID)
    (expected : Nat) (actual : Nat) : ValidationError :=
  .wrongNumberArguments source_loc policy_id expected actual

/-- Embeds `ValidationError::function_argument_validation`. -/
def ValidationError.function_argument_validation (source_loc : Option Loc) (policy_id : PolicyID)
    (msg : String) : ValidationError :=
  .functionArgumentValidation source_loc policy_id msg

/-- Embeds `ValidationError::empty_set_forbidden`. -/
def ValidationError.empty_set_forbidden (source_loc : Option Loc)
    (policy_id : PolicyID) : ValidationError :=
  .emptySetForbidden source_loc policy_id

/-- Embeds `ValidationError::non_lit_ext_constructor`. -/
def ValidationError.non_lit_ext_constructor (source_loc : Option Loc)
    (policy_id : PolicyID) : ValidationError :=
  .nonLitExtConstructor source_loc policy_id

/-- Embeds `ValidationError::hierarchy_not_respected`. -/
def ValidationError.hierarchy_not_respected (source_loc : Option Loc) (policy_id : PolicyID)
    (in_lhs : Option EntityType) (in_rhs : Option EntityType) : ValidationError :=
  .hierarchyNotRespected source_loc policy_id in_lhs in_rhs

/-- Embeds `ValidationError::internal_invariant_violation`. -/
def ValidationError.internal_invariant_violation (source_loc : Option Loc)
    (policy_id : PolicyID) : ValidationError :=
  .internalInvariantViolation source_loc policy_id

/-- Gets the source location any `ValidationWarning` variant carries. -/
def ValidationWarning.source_loc : ValidationWarning → Option Loc
  | .mixedScriptString loc _ _ => loc
  | .bidiCharsInString loc _ _ => loc
  | .bidiCharsInIdentifier loc _ _ => loc
  | .mixedScriptIdentifier loc _ _ => loc
  | .confusableIdentifier loc _ _ _ => loc
  | .impossiblePolicy loc _ => loc

/-- Gets the owning policy id any `ValidationWarning` variant carries. -/
def ValidationWarning.policy_id : ValidationWarning → PolicyID
  | .mixedScriptString _ pid _ => pid
  | .bidiCharsInString _ pid _ => pid
  | .bidiCharsInIdentifier _ pid _ => pid
  | .mixedScriptIdentifier _ pid _ => pid
  | .confusableIdentifier _ pid _ _ => pid
  | .impossiblePolicy _ pid => pid

/-- Embeds `ValidationWarning::mixed_script_string` (the
`impl Into<String>` argument is taken directly as a `String`). -/
def ValidationWarning.mixed_script_string (source_loc : Option Loc) (policy_id : PolicyID)
    (string : String) : ValidationWarning :=
  .mixedScriptString source_loc policy_id string

/-- Embeds `ValidationWarning::bidi_chars_strings`. -/
def ValidationWarning.bidi_chars_strings (source_loc : Option Loc) (policy_id : PolicyID)
    (string : String) : ValidationWarning :=
  .bidiCharsInString source_loc policy_id string

/-- Embeds `ValidationWarning::mixed_script_identifier`. -/
def ValidationWarning.mixed_script_identifier (source_loc : Option Loc) (policy_id : PolicyID)
    (id : String) : ValidationWarning :=
  .mixedScriptIdentifier source_loc policy_id id

/-- Embeds `ValidationWarning::bidi_chars_identifier`. -/
def ValidationWarning.bidi_chars_identifier (source_loc : Option Loc) (policy_id : PolicyID)
    (id : String) : ValidationWarning :=
  .bidiCharsInIdentifier source_loc policy_id id

/-- Embeds `ValidationWarning::confusable_identifier`. -/
def ValidationWarning.confusable_identifier (source_loc : Option Loc) (policy_id : PolicyID)
    (id : String) (confusable_character : Char) : ValidationWarning :=
  .confusableIdentifier source_loc policy_id id confusable_character

/-- Embeds `ValidationWarning::impossible_policy`. -/
def ValidationWarning.impossible_policy (source_loc : Option Loc)
    (policy_id : PolicyID) : ValidationWarning :=
  .impossiblePolicy source_loc policy_id

/-- Embeds the `ValidationResult` struct of `diagnostics.rs`: two owned
vectors of diagnostics, represented as lists. -/
structure ValidationResult where
  validation_errors : List ValidationError
  validation_warnings : List ValidationWarning
deriving DecidableEq

/-- Embeds `ValidationResult::new`: collects the error iterator and the
warning iterator, in order, into the two stored vectors. -/
def ValidationResult.new (errors : List ValidationError)
    (warnings : List ValidationWarning) : ValidationResult :=
  { validation_errors := errors, validation_warnings := warnings }

/-- Embeds `ValidationResult::validation_passed`:
`self.validation_errors.is_empty()`. -/
def ValidationResult.validation_passed (self : ValidationResult) : Bool :=
  self.validation_errors.isEmpty

/-- Embeds `ValidationResult::into_errors_and_warnings`: the pair of
owned iterators over the stored errors and warnings. -/
def ValidationResult.into_errors_and_warnings (self : ValidationResult) :
    List ValidationError × List ValidationWarning :=
  (self.validation_errors, self.validation_warnings)

/-- The tag of a `ValidationError` variant. -/
inductive ValidationErrorKind where
  | unrecognizedEntityType : ValidationErrorKind
  | unrecognizedActionId : ValidationErrorKind
  | invalidActionApplication : ValidationErrorKind
  | unexpectedType : ValidationErrorKind
  | incompatibleTypes : ValidationErrorKind
  | unsafeAttributeAccess : ValidationErrorKind
  | unsafeOptionalAttributeAccess : ValidationErrorKind
  | unsafeTagAccess : ValidationErrorKind
  | noTagsAllowed : ValidationErrorKind
  | undefinedFunction : ValidationErrorKind
  | wrongNumberArguments : ValidationErrorKind
  | functionArgumentValidation : ValidationErrorKind
  | emptySetForbidden : ValidationErrorKind
  | nonLitExtConstructor : ValidationErrorKind
  | hierarchyNotRespected : ValidationErrorKind
  | internalInvariantViolation : ValidationErrorKind
deriving DecidableEq, Fintype, Repr

/-- The tag of a `ValidationWarning` variant. -/
inductive ValidationWarningKind where
  | mixedScriptString : ValidationWarningKind
  | bidiCharsInString : ValidationWarningKind
  | bidiCharsInIdentifier : ValidationWarningKind
  | mixedScriptIdentifier : ValidationWarningKind
  | confusableIdentifier : ValidationWarningKind
  | impossiblePolicy : ValidationWarningKind
deriving DecidableEq, Fintype, Repr

/-- Maps a `ValidationError` to the tag of its variant. -/
def ValidationError.kind : ValidationError → ValidationErrorKind
  | .unrecognizedEntityType _ _ _ _ => .unrecognizedEntityType
  | .unrecognizedActionId _ _ _ _ => .unrecognizedActionId
  | .invalidActionApplication _ _ _ _ => .invalidActionApplication
  | .unexpectedType _ _ _ _ _ => .unexpectedType
  | .incompatibleTypes _ _ _ _ _ => .incompatibleTypes
  | .unsafeAttributeAccess _ _ _ _ _ => .unsafeAttributeAccess
  | .unsafeOptionalAttributeAccess _ _ _ => .unsafeOptionalAttributeAccess
  | .unsafeTagAccess _ _ _ _ => .unsafeTagAccess
  | .noTagsAllowed _ _ _ => .noTagsAllowed
  | .undefinedFunction _ _ _ => .undefinedFunction
  | .wrongNumberArguments _ _ _ _ => .wrongNumberArguments
  | .functionArgumentValidation _ _ _ => .functionArgumentValidation
  | .emptySetForbidden _ _ => .emptySetForbidden
  | .nonLitExtConstructor _ _ => .nonLitExtConstructor
  | .hierarchyNotRespected _ _ _ _ => .hierarchyNotRespected
  | .internalInvariantViolation _ _ => .internalInvariantViolation

/-- Maps a `ValidationWarning` to the tag of its variant. -/
def ValidationWarning.kind : ValidationWarning → ValidationWarningKind
  | .mixedScriptString _ _ _ => .mixedScriptString
  | .bidiCharsInString _ _ _ => .bidiCharsInString
  | .bidiCharsInIdentifier _ _ _ => .bidiCharsInIdentifier
  | .mixedScriptIdentifier _ _ _ => .mixedScriptIdentifier
  | .confusableIdentifier _ _ _ _ => .confusableIdentifier
  | .impossiblePolicy _ _ => .impossiblePolicy

/-- Structural, field-by-field equality between two `ValidationError`
values: the same variant and every carried field equal; values of
different variants are never related. -/
def ValidationError.structEq : ValidationError → ValidationError → Prop
  | .unrecognizedEntityType l1 p1 a1 s1, .unrecognizedEntityType l2 p2 a2 s2 =>
      l1 = l2 ∧ p1 = p2 ∧ a1 = a2 ∧ s1 = s2
  | .unrecognizedActionId l1 p1 a1 h1, .unrecognizedActionId l2 p2 a2 h2 =>
      l1 = l2 ∧ p1 = p2 ∧ a1 = a2 ∧ h1 = h2
  | .invalidActionApplication l1 p1 fp1 fr1, .invalidActionApplication l2 p2 fp2 fr2 =>
      l1 = l2 ∧ p1 = p2 ∧ fp1 = fp2 ∧ fr1 = fr2
  | .unexpectedType l1 p1 ex1 ac1 h1, .unexpectedType l2 p2 ex2 ac2 h2 =>
      l1 = l2 ∧ p1 = p2 ∧ ex1 = ex2 ∧ ac1 = ac2 ∧ h1 = h2
  | .incompatibleTypes l1 p1 t1 h1 c1, .incompatibleTypes l2 p2 t2 h2 c2 =>
      l1 = l2 ∧ p1 = p2 ∧ t1 = t2 ∧ h1 = h2 ∧ c1 = c2
  | .unsafeAttributeAccess l1 p1 a1 s1 m1, .unsafeAttributeAccess l2 p2 a2 s2 m2 =>
      l1 = l2 ∧ p1 = p2 ∧ a1 = a2 ∧ s1 = s2 ∧ m1 = m2
  | .unsafeOptionalAttributeAccess l1 p1 a1, .unsafeOptionalAttributeAccess l2 p2 a2 =>
      l1 = l2 ∧ p1 = p2 ∧ a1 = a2
  | .unsafeTagAccess l1 p1 e1 t1, .unsafeTagAccess l2 p2 e2 t2 =>
      l1 = l2 ∧ p1 = p2 ∧ e1 = e2 ∧ t1 = t2
  | .noTagsAllowed l1 p1 e1, .noTagsAllowed l2 p2 e2 =>
      l1 = l2 ∧ p1 = p2 ∧ e1 = e2
  | .undefinedFunction l1 p1 n1, .undefinedFunction l2 p2 n2 =>
      l1 = l2 ∧ p1 = p2 ∧ n1 = n2
  | .wrongNumberArguments l1 p1 e1 a1, .wrongNumberArguments l2 p2 e2 a2 =>
      l1 = l2 ∧ p1 = p2 ∧ e1 = e2 ∧ a1 = a2
  | .functionArgumentValidation l1 p1 m1, .functionArgumentValidation l2 p2 m2 =>
      l1 = l2 ∧ p1 = p2 ∧ m1 = m2
  | .emptySetForbidden l1 p1, .emptySetForbidden l2 p2 => l1 = l2 ∧ p1 = p2
  | .nonLitExtConstructor l1 p1, .nonLitExtConstructor l2 p2 => l1 = l2 ∧ p1 = p2
  | .hierarchyNotRespected l1 p1 lh1 rh1, .hierarchyNotRespected l2 p2 lh2 rh2 =>
      l1 = l2 ∧ p1 = p2 ∧ lh1 = lh2 ∧ rh1 = rh2
  | .internalInvariantViolation l1 p1, .internalInvariantViolation l2 p2 => l1 = l2 ∧ p1 = p2
  | _, _ => False

/-- Modelled from the spec: Levenshtein edit distance between two
character lists, used for closest-name suggestions (spec sections 4.4
and 9: a pure fuzzy-matching helper external to the diagnostics file).
The first argument is fuel; it is always called with enough fuel to
reach a base case. -/
def editDistanceAux : Nat → List Char → List Char → Nat
  | _, [], ys => ys.length
  | _, xs, [] => xs.length
  | 0, _, _ => 0
  | fuel + 1, x :: xs, y :: ys =>
      if x = y then editDistanceAux fuel xs ys
      else 1 + min (editDistanceAux fuel xs (y :: ys))
            (min (editDistanceAux fuel (x :: xs) ys) (editDistanceAux fuel xs ys))

/-- Modelled from the spec: edit distance between two strings. -/
def editDistance (a b : String) : Nat :=
  editDistanceAux (a.length + b.length) a.data b.data

/-- Modelled from the spec: the fuzzy-matching helper
`(candidate, pool) -> Option<string>` (spec section 9): returns the
pool element closest to the candidate by edit distance, preferring the
earliest on ties, or none when the pool is empty. -/
def fuzzyMatch (candidate : String) : List String → Option String
  | [] => none
  | p :: ps =>
      match fuzzyMatch candidate ps with
      | none => some p
      | some q => if editDistance candidate p ≤ editDistance candidate q then some p else some q

/-- Modelled from the spec: the validator's check of one entity-type
reference against the schema's declared entity types (spec sections 4.2
and 8, end-to-end scenario 1; the checker itself is not part of the
diagnostics source file): an undeclared name yields one
`UnrecognizedEntityType` error carrying the name actually found and the
fuzzy-match suggestion over the declared names. -/
def checkEntityTypeRef (declared : List String) (referenced : String)
    (source_loc : Option Loc) (policy_id : PolicyID) : List ValidationError :=
  if referenced ∈ declared then []
  else [ValidationError.unrecognized_entity_type source_loc policy_id referenced
          (fuzzyMatch referenced declared)]

/-- Modelled from the spec: the strict-mode hierarchy check raising
site (spec section 4.5; not part of the diagnostics source file): an
`in` test is rejected when the left-hand entity-LUB contains a member
that the schema relation declares a possible descendant of no
right-hand member; the error names one concrete offending pair (the
first offending left member and the first right member). -/
def strictHierarchyCheck (canBeDescendant : String → String → Bool)
    (source_loc : Option Loc) (policy_id : PolicyID)
    (lhsMembers rhsMembers : List String) : Option ValidationError :=
  match lhsMembers.find? (fun m => rhsMembers.all (fun r => !(canBeDescendant m r))),
      rhsMembers.head? with
  | some m, some r =>
      some (ValidationError.hierarchy_not_respected source_loc policy_id
              (some (EntityType.mk m)) (some (EntityType.mk r)))
  | _, _ => none

/-- The derive list on the `ValidationError` enum declaration
(`diagnostics.rs` line 93), recorded verbatim: the trait
implementations the enum derives. -/
def ValidationErrorDerives : List String :=
  ["Clone", "Debug", "Diagnostic", "Error", "Hash", "Eq", "PartialEq"]

/-- The derive list on the `ValidationWarning` enum declaration
(`diagnostics.rs` line 405), recorded verbatim. -/
def ValidationWarningDerives : List String :=
  ["Debug", "Clone", "PartialEq", "Diagnostic", "Error", "Eq", "Hash"]

/-- C1: for every `ValidationResult`, `validation_passed` returns true
exactly when the stored error sequence is empty, regardless of the
warnings; in particular a result built from an empty error iterator and
any warning iterator passes. -/
theorem validation_passed_iff_no_errors :
    (∀ r : ValidationResult, r.validation_passed = true ↔ r.validation_errors = []) ∧
    (∀ warnings : List ValidationWarning,
        (ValidationResult.new [] warnings).validation_passed = true) := by
  constructor
  · intro r
    simp [ValidationResult.validation_passed, List.isEmpty_iff]
  · intro warnings
    rfl

/-- C2: `ValidationResult::new` stores exactly the input errors and
warnings, in input order, and the accessors expose those stored
sequences unchanged: nothing is deduplicated, reordered, or dropped. -/
theorem validation_result_new_preserves_diagnostics :
    ∀ (errors : List ValidationError) (warnings : List ValidationWarning),
      (ValidationResult.new errors warnings).validation_errors = errors ∧
      (ValidationResult.new errors warnings).validation_warnings = warnings :=
  fun _ _ => ⟨rfl, rfl⟩

/-- C3 counterexample: the `ValidationError` union of the default build
does not have 15 variants. -/
theorem validation_error_variant_count_not_fifteen :
    ¬ Fintype.card ValidationErrorKind = 15 := by decide

/-- C3 amended: `ValidationError` is a closed tagged union with 16
variants in the default build (a 17th, `EntityDerefLevelViolation`, is
feature-gated) and `ValidationWarning` one with 6 variants, and every
variant carries an optional source location and the owning policy id,
retrievable from whatever was stored at construction. -/
theorem validation_error_variant_counts :
    Fintype.card ValidationErrorKind = 16 ∧
    Fintype.card ValidationWarningKind = 6 ∧
    (∀ loc pid a s, (ValidationError.unrecognizedEntityType loc pid a s).source_loc = loc ∧
        (ValidationError.unrecognizedEntityType loc pid a s).policy_id = pid) ∧
    (∀ loc pid a h, (ValidationError.unrecognizedActionId loc pid a h).source_loc = loc ∧
        (ValidationError.unrecognizedActionId loc pid a h).policy_id = pid) ∧
    (∀ loc pid p r, (ValidationError.invalidActionApplication loc pid p r).source_loc = loc ∧
        (ValidationError.invalidActionApplication loc pid p r).policy_id = pid) ∧
    (∀ loc pid ex ac h, (ValidationError.unexpectedType loc pid ex ac h).source_loc = loc ∧
        (ValidationError.unexpectedType loc pid ex ac h).policy_id = pid) ∧
    (∀ loc pid t h c, (ValidationError.incompatibleTypes loc pid t h c).source_loc = loc ∧
        (ValidationError.incompatibleTypes loc pid t h c).policy_id = pid) ∧
    (∀ loc pid a s m, (ValidationError.unsafeAttributeAccess loc pid a s m).source_loc = loc ∧
        (ValidationError.unsafeAttributeAccess loc pid a s m).policy_id = pid) ∧
    (∀ loc pid a, (ValidationError.unsafeOptionalAttributeAccess loc pid a).source_loc = loc ∧
        (ValidationError.unsafeOptionalAttributeAccess loc pid a).policy_id = pid) ∧
    (∀ loc pid e t, (ValidationError.unsafeTagAccess loc pid e t).source_loc = loc ∧
        (ValidationError.unsafeTagAccess loc pid e t).policy_id = pid) ∧
    (∀ loc pid e, (ValidationError.noTagsAllowed loc pid e).source_loc = loc ∧
        (ValidationError.noTagsAllowed loc pid e).policy_id = pid) ∧
    (∀ loc pid n, (ValidationError.undefinedFunction loc pid n).source_loc = loc ∧
        (ValidationError.undefinedFunction loc pid n).policy_id = pid) ∧
    (∀ loc pid e a, (ValidationError.wrongNumberArguments loc pid e a).source_loc = loc ∧
        (ValidationError.wrongNumberArguments loc pid e a).policy_id = pid) ∧
    (∀ loc pid m, (ValidationError.functionArgumentValidation loc pid m).source_loc = loc ∧
        (ValidationError.functionArgumentValidation loc pid m).policy_id = pid) ∧
    (∀ loc pid, (ValidationError.emptySetForbidden loc pid).source_loc = loc ∧
        (ValidationError.emptySetForbidden loc pid).policy_id = pid) ∧
    (∀ loc pid, (ValidationError.nonLitExtConstructor loc pid).source_loc = loc ∧
        (ValidationError.nonLitExtConstructor loc pid).policy_id = pid) ∧
    (∀ loc pid lh rh, (ValidationError.hierarchyNotRespected loc pid lh rh).source_loc = loc ∧
        (ValidationError.hierarchyNotRespected loc pid lh rh).policy_id = pid) ∧
    (∀ loc pid, (ValidationError.internalInvariantViolation loc pid).source_loc = loc ∧
        (ValidationError.internalInvariantViolation loc pid).policy_id = pid) ∧
    (∀ loc pid s, (ValidationWarning.mixedScriptString loc pid s).source_loc = loc ∧
        (ValidationWarning.mixedScriptString loc pid s).policy_id = pid) ∧
    (∀ loc pid s, (ValidationWarning.bidiCharsInString loc pid s).source_loc = loc ∧
        (ValidationWarning.bidiCharsInString loc pid s).policy_id = pid) ∧
    (∀ loc pid i, (ValidationWarning.bidiCharsInIdentifier loc pid i).source_loc = loc ∧
        (ValidationWarning.bidiCharsInIdentifier loc pid i).policy_id = pid) ∧
    (∀ loc pid i, (ValidationWarning.mixedScriptIdentifier loc pid i).source_loc = loc ∧
        (ValidationWarning.mixedScriptIdentifier loc pid i).policy_id = pid) ∧
    (∀ loc pid i c, (ValidationWarning.confusableIdentifier loc pid i c).source_loc = loc ∧
        (ValidationWarning.confusableIdentifier loc pid i c).policy_id = pid) ∧
    (∀ loc pid, (ValidationWarning.impossiblePolicy loc pid).source_loc = loc ∧
        (ValidationWarning.impossiblePolicy loc pid).policy_id = pid) :=
  ⟨by decide, by decide,
   fun _ _ _ _ => ⟨rfl, rfl⟩, fun _ _ _ _ => ⟨rfl, rfl⟩, fun _ _ _ _ => ⟨rfl, rfl⟩,
   fun _ _ _ _ _ => ⟨rfl, rfl⟩, fun _ _ _ _ _ => ⟨rfl, rfl⟩, fun _ _ _ _ _ => ⟨rfl, rfl⟩,
   fun _ _ _ => ⟨rfl, rfl⟩, fun _ _ _ _ => ⟨rfl, rfl⟩, fun _ _ _ => ⟨rfl, rfl⟩,
   fun _ _ _ => ⟨rfl, rfl⟩, fun _ _ _ _ => ⟨rfl, rfl⟩, fun _ _ _ => ⟨rfl, rfl⟩,
   fun _ _ => ⟨rfl, rfl⟩, fun _ _ => ⟨rfl, rfl⟩, fun _ _ _ _ => ⟨rfl, rfl⟩,
   fun _ _ => ⟨rfl, rfl⟩, fun _ _ _ => ⟨rfl, rfl⟩, fun _ _ _ => ⟨rfl, rfl⟩,
   fun _ _ _ => ⟨rfl, rfl⟩, fun _ _ _ => ⟨rfl, rfl⟩, fun _ _ _ _ => ⟨rfl, rfl⟩,
   fun _ _ => ⟨rfl, rfl⟩⟩

/-- C4: `incompatible_types` carries a deduplicated, order-independent
set of the offending types: inputs with the same members give
structurally equal errors, the carried set is exactly the collected
input as a `Finset`, it has no duplicates, and it contains precisely
the types of the input. -/
theorem incompatible_types_deduplicated_set (source_loc : Option Loc) (policy_id : PolicyID)
    (ts1 ts2 : List CedarType) (hint : LubHelp) (context : LubContext)
    (hmem : ∀ t, t ∈ ts1 ↔ t ∈ ts2) :
    ValidationError.incompatible_types source_loc policy_id ts1 hint context =
      ValidationError.incompatible_types source_loc policy_id ts2 hint context ∧
    ValidationError.incompatible_types source_loc policy_id ts1 hint context =
      ValidationError.incompatibleTypes source_loc policy_id ts1.toFinset hint context ∧
    ts1.toFinset.val.Nodup ∧
    (∀ t, t ∈ ts1.toFinset ↔ t ∈ ts1) := by
  have hfin : ts1.toFinset = ts2.toFinset := by
    ext t
    simp only [List.mem_toFinset]
    exact hmem t
  refine ⟨?_, rfl, ts1.toFinset.nodup, ?_⟩
  · simp [ValidationError.incompatible_types, hfin]
  · intro t
    exact List.mem_toFinset

/-- C4 witness: two concrete lists with the same members, one with a
duplicate, produce the same `IncompatibleTypes` error with a
duplicate-free carried set. -/
theorem incompatible_types_deduplicated_set_witness :
    (∀ t : CedarType,
        t ∈ [CedarType.primitive .boolean, CedarType.primitive .long,
              CedarType.primitive .boolean] ↔
        t ∈ [CedarType.primitive .long, CedarType.primitive .boolean]) ∧
    (ValidationError.incompatible_types none ⟨"p0"⟩
        [CedarType.primitive .boolean, CedarType.primitive .long, CedarType.primitive .boolean]
        .differentShapes .setElements =
      ValidationError.incompatible_types none ⟨"p0"⟩
        [CedarType.primitive .long, CedarType.primitive .boolean]
        .differentShapes .setElements ∧
     ValidationError.incompatible_types none ⟨"p0"⟩
        [CedarType.primitive .boolean, CedarType.primitive .long, CedarType.primitive .boolean]
        .differentShapes .setElements =
      ValidationError.incompatibleTypes none ⟨"p0"⟩
        [CedarType.primitive .boolean, CedarType.primitive .long,
          CedarType.primitive .boolean].toFinset .differentShapes .setElements ∧
     [CedarType.primitive .boolean, CedarType.primitive .long,
        CedarType.primitive .boolean].toFinset.val.Nodup ∧
     (∀ t, t ∈ [CedarType.primitive .boolean, CedarType.primitive .long,
          CedarType.primitive .boolean].toFinset ↔
        t ∈ [CedarType.primitive .boolean, CedarType.primitive .long,
              CedarType.primitive .boolean])) := by
  have hmem : ∀ t : CedarType,
      t ∈ [CedarType.primitive .boolean, CedarType.primitive .long,
            CedarType.primitive .boolean] ↔
      t ∈ [CedarType.primitive .long, CedarType.primitive .boolean] := by
    intro t
    constructor <;> intro ht <;> simp at ht ⊢ <;> tauto
  exact ⟨hmem, incompatible_types_deduplicated_set none ⟨"p0"⟩ _ _ .differentShapes
    .setElements hmem⟩

/-- C5 counterexample: the `ValidationError` enum derives no ordering:
neither `Ord` nor `PartialOrd` appears in its derive list, so no
ordering over `ValidationError` values is defined, structural or
otherwise. -/
theorem validation_error_no_order_derive :
    "Ord" ∉ ValidationErrorDerives ∧ "PartialOrd" ∉ ValidationErrorDerives := by decide

/-- C5 amended: equality over `ValidationError` values is structural:
two errors are equal exactly when they are the same variant with all
carried fields equal (so identically constructed errors can be
deduplicated); the enum derives `Hash`, `Eq`, and `PartialEq` but no
ordering traits. -/
theorem validation_error_eq_structural :
    (∀ e1 e2 : ValidationError, e1 = e2 ↔ ValidationError.structEq e1 e2) ∧
    "Eq" ∈ ValidationErrorDerives ∧ "PartialEq" ∈ ValidationErrorDerives ∧
    "Hash" ∈ ValidationErrorDerives := by
  refine ⟨?_, by decide, by decide, by decide⟩
  intro e1 e2
  cases e1 <;> cases e2 <;> simp [ValidationError.structEq]

/-- C6: `invalid_action_application` stores its two booleans verbatim,
and all four combinations are constructible and pairwise distinct. -/
theorem invalid_action_application_bools :
    (∀ (source_loc : Option Loc) (policy_id : PolicyID) (p r : Bool),
        ValidationError.invalid_action_application source_loc policy_id p r =
          ValidationError.invalidActionApplication source_loc policy_id p r) ∧
    (∀ (source_loc : Option Loc) (policy_id : PolicyID),
        List.Pairwise (fun a b => a ≠ b)
          [ValidationError.invalid_action_application source_loc policy_id true true,
            ValidationError.invalid_action_application source_loc policy_id true false,
            ValidationError.invalid_action_application source_loc policy_id false true,
            ValidationError.invalid_action_application source_loc policy_id false false]) := by
  refine ⟨fun _ _ _ _ => rfl, ?_⟩
  intro loc pid
  simp [ValidationError.invalid_action_application]

/-- C7: the consuming split yields exactly the same error sequence and
warning sequence, in the same order, as the borrowing accessors. -/
theorem into_errors_and_warnings_eq_accessors :
    ∀ r : ValidationResult,
      r.into_errors_and_warnings = (r.validation_errors, r.validation_warnings) :=
  fun _ => rfl

/-- C8: whenever the strict-mode hierarchy check raises
`HierarchyNotRespected`, the carried `in_lhs` and `in_rhs` fields are
both present entity types. -/
theorem strict_hierarchy_error_names_concrete_pair
    (canBeDescendant : String → String → Bool) (source_loc : Option Loc) (policy_id : PolicyID)
    (lhsMembers rhsMembers : List String) (e : ValidationError)
    (h : strictHierarchyCheck canBeDescendant source_loc policy_id lhsMembers rhsMembers =
          some e) :
    ∃ lhs rhs : EntityType,
      e = ValidationError.hierarchy_not_respected source_loc policy_id (some lhs) (some rhs) := by
  unfold strictHierarchyCheck at h
  split at h
  · rename_i m r _ _
    exact ⟨⟨m⟩, ⟨r⟩, by injection h with h1; exact h1.symm⟩
  · exact absurd h (by simp)

/-- C8 witness: a concrete strict-mode check that raises the error, and
the raised error names a concrete pair. -/
theorem strict_hierarchy_error_names_concrete_pair_witness :
    strictHierarchyCheck (fun _ _ => false) none ⟨"p1"⟩ ["A"] ["B"] =
      some (ValidationError.hierarchy_not_respected none ⟨"p1"⟩ (some ⟨"A"⟩) (some ⟨"B"⟩)) ∧
    (∃ lhs rhs : EntityType,
        ValidationError.hierarchy_not_respected none ⟨"p1"⟩ (some ⟨"A"⟩) (some ⟨"B"⟩) =
          ValidationError.hierarchy_not_respected none ⟨"p1"⟩ (some lhs) (some rhs)) := by
  have h : strictHierarchyCheck (fun _ _ => false) none ⟨"p1"⟩ ["A"] ["B"] =
      some (ValidationError.hierarchy_not_respected none ⟨"p1"⟩ (some ⟨"A"⟩) (some ⟨"B"⟩)) := rfl
  exact ⟨h, strict_hierarchy_error_names_concrete_pair _ _ _ _ _ _ h⟩

/-- C9: `unrecognized_entity_type` stores the found name and the
optional suggestion verbatim, and checking a reference to `Usr` against
a schema declaring only `User` yields exactly one
`UnrecognizedEntityType` error with the found name `Usr` and the
suggestion `User`. -/
theorem unrecognized_entity_type_scenario :
    (∀ (source_loc : Option Loc) (policy_id : PolicyID) (a : String) (s : Option String),
        ValidationError.unrecognized_entity_type source_loc policy_id a s =
          ValidationError.unrecognizedEntityType source_loc policy_id a s) ∧
    (∀ (source_loc : Option Loc) (policy_id : PolicyID),
        checkEntityTypeRef ["User"] "Usr" source_loc policy_id =
          [ValidationError.unrecognizedEntityType source_loc policy_id "Usr" (some "User")]) :=
  ⟨fun _ _ _ _ => rfl, fun _ _ => rfl⟩

/-- C10: the error constructors are total and validate nothing:
`wrong_number_args` stores any expected/actual pair verbatim, including
an equal pair, and `incompatible_types` on an empty type list produces
an `IncompatibleTypes` error carrying the empty set, with the other
arguments stored verbatim. -/
theorem error_constructors_store_arguments :
    (∀ (source_loc : Option Loc) (policy_id : PolicyID) (expected actual : Nat),
        ValidationError.wrong_number_args source_loc policy_id expected actual =
          ValidationError.wrongNumberArguments source_loc policy_id expected actual) ∧
    (∀ (source_loc : Option Loc) (policy_id : PolicyID) (n : Nat),
        ValidationError.wrong_number_args source_loc policy_id n n =
          ValidationError.wrongNumberArguments source_loc policy_id n n) ∧
    (∀ (source_loc : Option Loc) (policy_id : PolicyID) (hint : LubHelp)
        (context : LubContext),
        ValidationError.incompatible_types source_loc policy_id [] hint context =
          ValidationError.incompatibleTypes source_loc policy_id ∅ hint context) := by
  refine ⟨fun _ _ _ _ => rfl, fun _ _ _ => rfl, fun _ _ _ _ => ?_⟩
  simp [ValidationError.incompatible_types]

end CedarDiag
